import Mathlib

/-!
Verification of the FROST verdict-fusion core against its implementation.

This file is a shallow embedding of the Python sources
`backend/ml_api/main.py` (evidence fetchers, headline similarity, the
`check_fake_news` fusion endpoint), `backend/main.py` (the
`fake_news_check` endpoint) and `backend/deepfake_detector.py`
(`analyze_image`).  Python floats are modelled as exact rationals,
Python `str` as its list of characters, raised exceptions as `Except`,
and the external collaborators (the `requests` network calls, the
pickled classifier, and sklearn's TF-IDF / cosine-similarity pipeline)
as explicit parameters recording their outcomes for one request.
-/

namespace Frost

/-- Python `str`, modelled as its list of characters. -/
abbrev Str := List Char

/-- Python truthiness of an optional string (`None` and `""` are falsy). -/
def truthy : Option String → Bool
  | none => false
  | some s => !(s == "")

/-- Python truthiness of an optional `Str` (`None` and `""` are falsy). -/
def truthyL : Option Str → Bool
  | none => false
  | some s => !s.isEmpty

/-- The characters Python `str.strip()` removes. -/
def isPyWs (c : Char) : Bool :=
  c == ' ' || c == '\t' || c == '\n' || c == '\r' || c == '\x0b' || c == '\x0c'

/-- Python `s.strip()`: drop whitespace from both ends. -/
def pyStrip (s : Str) : Str :=
  ((s.dropWhile isPyWs).reverse.dropWhile isPyWs).reverse

/-- Python `max` over a list of numbers.  The code only ever applies it to a
nonempty list (`cosine_similarity` returns one score per evidence title). -/
def pyMax : List ℚ → ℚ
  | [] => 0
  | x :: xs => xs.foldl max x

/-- Python `int()` on a float: truncation toward zero. -/
def pyInt (q : ℚ) : ℤ := if 0 ≤ q then ⌊q⌋ else -⌊-q⌋

/-- Python `round` to the nearest integer, halves to even. -/
def pyRoundInt (x : ℚ) : ℤ :=
  let f := ⌊x⌋
  if x - f < 1/2 then f
  else if 1/2 < x - f then f + 1
  else if f % 2 = 0 then f else f + 1

/-- Python `round(x, 2)`. -/
def pyRound2 (x : ℚ) : ℚ := (pyRoundInt (x * 100) : ℚ) / 100

/-! ## `backend/deepfake_detector.py` -/

/-- The result dict of `analyze_image`. -/
structure ImageResult where
  verdict : String
  confidence : ℤ
  method : String
deriving DecidableEq

/-- `analyze_image` (backend/deepfake_detector.py).  The OpenCV measurements
are taken as parameters: `blur_score` is the Laplacian variance of the
grayscale image and `noise` its intensity standard deviation.  The function
then scores exactly as the Python body does:
`confidence = min(100, int((noise + (1000 / (blur_score + 1))) / 20))` and
`verdict = "FAKE" if confidence > 60 else "REAL"`.  The image dimensions
play no role in the computation. -/
def analyze_image (blur_score noise : ℚ) : ImageResult :=
  let confidence : ℤ := min 100 (pyInt ((noise + 1000 / (blur_score + 1)) / 20))
  ⟨if 60 < confidence then "FAKE" else "REAL", confidence, "Image forensic analysis"⟩

/-! ## `backend/ml_api/main.py`: evidence retrieval -/

/-- One evidence dict built by `fetch_nytimes` / `fetch_guardian`. -/
structure EvidenceItem where
  source : String
  weight : ℚ
  title : String
  url : String
deriving DecidableEq

/-- Python exceptions the fetchers can raise: a `requests` failure
(connection error / timeout / bad response), a JSON decoding failure, or a
`KeyError` from a missing payload key. -/
inductive PyExn where
  | requestException
  | jsonError
  | keyError
deriving DecidableEq

/-- One element of the `docs` array in the NYTimes payload.  The fields
looked up as `d["headline"]["main"]` and `d["web_url"]` raise `KeyError`
when absent, hence `Option`. -/
structure NytDoc where
  headlineMain : Option String
  webUrl : Option String
deriving DecidableEq

/-- The `response` object of the NYTimes payload: `.get("docs", [])`. -/
structure NytResponseObj where
  docs : Option (List NytDoc)
deriving DecidableEq

/-- A parsed NYTimes JSON payload: `.get("response", {})`. -/
structure NytJson where
  response : Option NytResponseObj
deriving DecidableEq

/-- One element of the `results` array in the Guardian payload; `r["webTitle"]`
and `r["webUrl"]` raise `KeyError` when absent. -/
structure GuardResult where
  webTitle : Option String
  webUrl : Option String
deriving DecidableEq

/-- The `response` object of the Guardian payload: `.get("results", [])`. -/
structure GuardResponseObj where
  results : Option (List GuardResult)
deriving DecidableEq

/-- A parsed Guardian JSON payload: `.get("response", {})`. -/
structure GuardJson where
  response : Option GuardResponseObj
deriving DecidableEq

/-- What a fetcher hands to `requests.get`: the endpoint and the `timeout`
keyword argument, if any.  (The query parameters also carry the query text
and the API key; they are irrelevant to the claims.) -/
structure HttpRequest where
  url : String
  timeout : Option ℚ
deriving DecidableEq

/-- The `requests.get(url, params=params)` call in `fetch_nytimes`: no
`timeout` argument is passed. -/
def nytimesRequest : HttpRequest :=
  ⟨"https://api.nytimes.com/svc/search/v2/articlesearch.json", none⟩

/-- The `requests.get(url, params=params)` call in `fetch_guardian`: no
`timeout` argument is passed. -/
def guardianRequest : HttpRequest :=
  ⟨"https://content.guardianapis.com/search", none⟩

/-- Run an item builder over a list, stopping at the first raised exception:
the model of a Python `for` loop that appends to `results` and may raise
`KeyError` mid-loop. -/
def mapExcept (f : α → Except PyExn β) : List α → Except PyExn (List β)
  | [] => .ok []
  | a :: rest =>
    match f a with
    | .error e => .error e
    | .ok b =>
      match mapExcept f rest with
      | .error e => .error e
      | .ok bs => .ok (b :: bs)

/-- The body of the `for d in ...docs[:3]` loop in `fetch_nytimes`. -/
def nytDocItem (d : NytDoc) : Except PyExn EvidenceItem :=
  match d.headlineMain, d.webUrl with
  | some t, some u => .ok ⟨"NYTimes", 9/20, t, u⟩
  | _, _ => .error .keyError

/-- `fetch_nytimes` (backend/ml_api/main.py).  `net` is the outcome of
`requests.get(...).json()` for this query; an exception there, or a missing
key in a doc, propagates to the caller — the function body has no
`try`/`except`.  The two `.get` lookups with defaults make a missing
`response` / `docs` yield the empty list, and `[:3]` caps the docs at 3. -/
def fetch_nytimes (apiKey : Option String) (net : Except PyExn NytJson) :
    Except PyExn (List EvidenceItem) :=
  if !truthy apiKey then .ok []
  else
    match net with
    | .error e => .error e
    | .ok res =>
      let docs := (match res.response with
        | some r => r.docs.getD []
        | none => []).take 3
      mapExcept nytDocItem docs

/-- The body of the `for r in ...results` loop in `fetch_guardian`. -/
def guardResultItem (r : GuardResult) : Except PyExn EvidenceItem :=
  match r.webTitle, r.webUrl with
  | some t, some u => .ok ⟨"Guardian", 7/20, t, u⟩
  | _, _ => .error .keyError

/-- `fetch_guardian` (backend/ml_api/main.py).  As with `fetch_nytimes`,
there is no `try`/`except`, so a network or payload failure propagates.
The result list is not capped locally (the cap is the `page-size: 3`
request parameter). -/
def fetch_guardian (apiKey : Option String) (net : Except PyExn GuardJson) :
    Except PyExn (List EvidenceItem) :=
  if !truthy apiKey then .ok []
  else
    match net with
    | .error e => .error e
    | .ok res =>
      let results := (match res.response with
        | some r => r.results.getD []
        | none => [])
      mapExcept guardResultItem results

/-! ## `backend/ml_api/main.py`: headline similarity -/

/-- The state of the module-global `similarity_vectorizer`: the corpus it
was last fitted on (`none` before its first `fit_transform`). -/
abbrev VecState := Option (Str × List String)

/-- Abstract model of sklearn's TF-IDF / cosine-similarity pipeline (an
external library).  `scores text titles` is the row
`cosine_similarity(vectors[0:1], vectors[1:])[0]` obtained after
`fit_transform([text] + titles)`: one similarity per title, depending only
on the corpus that was fitted. -/
structure SimKernel where
  scores : Str → List String → List ℚ
  scores_length : ∀ t ts, (scores t ts).length = ts.length

/-- `similarity_score` (backend/ml_api/main.py), with the mutation of the
shared `similarity_vectorizer` made explicit: `fit_transform` refits the
global vectorizer on the fresh corpus `[text] + titles` (recorded as the
new state) and its numeric output depends only on that corpus.  An empty
evidence list returns 0 without touching the vectorizer. -/
def similarity_score (K : SimKernel) (st : VecState) (text : Str)
    (headlines : List EvidenceItem) : VecState × ℚ :=
  if headlines.isEmpty then (st, 0)
  else
    let titles := headlines.map (·.title)
    (some (text, titles), pyMax (K.scores text titles))

/-! ## `backend/ml_api/main.py`: the fusion endpoint -/

/-- Verdict labels appearing in the endpoint's responses. -/
inductive Verdict where
  | REAL
  | FAKE
  | UNCERTAIN
  | UNKNOWN
deriving DecidableEq

/-- The JSON body returned by `check_fake_news`.  The fields after
`confidence` are absent (`none`) in the early `UNKNOWN` return. -/
structure Response where
  verdict : Verdict
  confidence : ℚ
  headline_similarity : Option ℚ
  evidence : Option (List EvidenceItem)
  explanation : Option String
deriving DecidableEq

/-- `{"verdict": "UNKNOWN", "confidence": 0}`. -/
def unknownResponse : Response := ⟨.UNKNOWN, 0, none, none, none⟩

/-- `sum(e["weight"] for e in evidence if sim > 0.25)`.  The gate condition
does not depend on `e`, so the sum is all-or-nothing. -/
def weight_score (sim : ℚ) (evidence : List EvidenceItem) : ℚ :=
  ((evidence.filter fun _ => decide (1/4 < sim)).map EvidenceItem.weight).sum

/-- `0.2 if ml_prob > 0.7 else 0`. -/
def ml_bonus (ml_prob : ℚ) : ℚ := if 7/10 < ml_prob then 1/5 else 0

/-- The verdict ladder of `check_fake_news`: `final_score >= 0.6` gives
REAL, else `>= 0.35` gives UNCERTAIN, else FAKE. -/
def verdict_of (final_score : ℚ) : Verdict :=
  if 3/5 ≤ final_score then .REAL
  else if 7/20 ≤ final_score then .UNCERTAIN
  else .FAKE

/-- The fixed explanation string of the fusion endpoint. -/
def fusionExplanation : String :=
  "Verdict based on trusted sources + similarity + ML support"

/-- `check_fake_news` (backend/ml_api/main.py), after content resolution
(`content = data.text or ""`, then the scraper when a URL is given):
`content` is the resolved text, `mlProb` is the black-box
`model.predict_proba(ml_vectorizer.transform([.]))[0].max()` — note it is
applied to the full, untruncated content — and `netN` / `netG` are the
network outcomes for the query `content[:120]`.  An exception raised by
either fetcher propagates and fails the whole request. -/
def check_fake_news (K : SimKernel) (st : VecState) (apiN apiG : Option String)
    (netN : Except PyExn NytJson) (netG : Except PyExn GuardJson)
    (mlProb : Str → ℚ) (content : Str) :
    Except PyExn (VecState × Response) :=
  if pyStrip content = [] then .ok (st, unknownResponse)
  else
    let ml_prob := mlProb content
    match fetch_nytimes apiN netN with
    | .error e => .error e
    | .ok evN =>
      match fetch_guardian apiG netG with
      | .error e => .error e
      | .ok evG =>
        let evidence := evN ++ evG
        let stSim := similarity_score K st content evidence
        let final_score := weight_score stSim.2 evidence + ml_bonus ml_prob
        .ok (stSim.1, ⟨verdict_of final_score, pyRound2 (final_score * 100),
          some (pyRound2 (stSim.2 * 100)), some evidence, some fusionExplanation⟩)

/-! ## `backend/main.py`: the classifier-only endpoint -/

/-- An `HTTPException` raised by the endpoint. -/
inductive HttpError where
  | badRequest (detail : String)
deriving DecidableEq

/-- The JSON body returned by `fake_news_check` on success. -/
structure FNResult where
  verdict : String
  confidence : ℚ
  explanation : String
deriving DecidableEq

/-- `fake_news_check` (backend/main.py).  `scraped` / `nytAbstract` are the
outcomes of the two content-acquisition collaborators (`scrape_article`,
`fetch_from_nytimes`, both of which swallow their own errors and return
`""`), and `predict` / `predictProba` are the black-box classifier calls.
The classifier is applied to `text[:10000]`; text shorter than 50
characters is rejected with an HTTP 400 error. -/
def fake_news_check (predict : Str → ℤ) (predictProba : Str → ℚ)
    (scraped nytAbstract : Str) (dataText dataUrl : Option Str) :
    Except HttpError FNResult :=
  if !truthyL dataText && !truthyL dataUrl then
    .error (.badRequest "Please provide either text or URL")
  else
    let resolved : Except HttpError Str :=
      if truthyL dataUrl && !truthyL dataText then
        if !scraped.isEmpty then .ok scraped
        else if !nytAbstract.isEmpty then .ok nytAbstract
        else .error (.badRequest "Could not extract article content from URL")
      else .ok (dataText.getD [])
    match resolved with
    | .error e => .error e
    | .ok text =>
      if text.length < 50 then
        .error (.badRequest "Text too short for reliable analysis (min 50 characters)")
      else
        let t := text.take 10000
        let prediction := predict t
        let probability := predictProba t
        .ok ⟨if prediction = 1 then "REAL" else "FAKE",
             pyRound2 (probability * 100),
             if prediction = 1 then "Language patterns match verified news sources"
             else "Sensational or misleading language patterns detected"⟩

/-! ## Concrete instances used by witnesses and counterexamples -/

/-- A concrete similarity kernel under which every title scores cosine
similarity 1 against the content. -/
def onesKernel : SimKernel :=
  ⟨fun _ ts => ts.map fun _ => 1, fun _ ts => by simp⟩

/-- A concrete similarity kernel under which every title scores 0. -/
def zerosKernel : SimKernel :=
  ⟨fun _ ts => ts.map fun _ => 0, fun _ ts => by simp⟩

/-- A classifier that is maximally confident on every input. -/
def alwaysSure : Str → ℚ := fun _ => 9/10

/-- A classifier that is never confident. -/
def neverSure : Str → ℚ := fun _ => 1/2

/-- A classifier whose output depends only on whether the input is longer
than 10,000 characters. -/
def lengthProbe : Str → ℚ := fun s => if 10000 < s.length then 1 else 0

/-- An empty NYTimes payload. -/
def emptyNytJson : NytJson := ⟨none⟩

/-- An empty Guardian payload. -/
def emptyGuardJson : GuardJson := ⟨none⟩

/-- A sample resolved content text. -/
def sampleContent : Str := "Breaking news story about the economy today".data

/-- A NYTimes payload carrying three well-formed docs. -/
def bigNytJson : NytJson :=
  ⟨some ⟨some [⟨some "h1", some "u1"⟩, ⟨some "h2", some "u2"⟩, ⟨some "h3", some "u3"⟩]⟩⟩

/-- A Guardian payload carrying three well-formed results. -/
def bigGuardJson : GuardJson :=
  ⟨some ⟨some [⟨some "g1", some "v1"⟩, ⟨some "g2", some "v2"⟩, ⟨some "g3", some "v3"⟩]⟩⟩

/-- A NYTimes payload carrying one well-formed doc. -/
def oneNytJson : NytJson := ⟨some ⟨some [⟨some "Some headline", some "http://x"⟩]⟩⟩

/-- A NYTimes payload whose only doc is missing its headline key. -/
def badNytJson : NytJson := ⟨some ⟨some [⟨none, some "u"⟩]⟩⟩

/-- The evidence items `fetch_nytimes` builds from `bigNytJson`. -/
def nytItems : List EvidenceItem :=
  [⟨"NYTimes", 9/20, "h1", "u1"⟩, ⟨"NYTimes", 9/20, "h2", "u2"⟩, ⟨"NYTimes", 9/20, "h3", "u3"⟩]

/-- The evidence items `fetch_guardian` builds from `bigGuardJson`. -/
def guardItems : List EvidenceItem :=
  [⟨"Guardian", 7/20, "g1", "v1"⟩, ⟨"Guardian", 7/20, "g2", "v2"⟩, ⟨"Guardian", 7/20, "g3", "v3"⟩]

/-- The evidence item `fetch_nytimes` builds from `oneNytJson`. -/
def oneHeadlineItems : List EvidenceItem := [⟨"NYTimes", 9/20, "Some headline", "http://x"⟩]

/-- A resolved text of 10,001 characters. -/
def longContent : Str := List.replicate 10001 'a'

/-- The first 10,000 characters of `longContent`, as a content of its own. -/
def longContentTrunc : Str := List.replicate 10000 'a'

/-! ## Helper lemmas about the Python primitives -/

theorem pyRoundInt_intCast (n : ℤ) : pyRoundInt (n : ℚ) = n := by
  unfold pyRoundInt
  rw [Int.floor_intCast]
  norm_num

theorem pyRound2_intCast (n : ℤ) : pyRound2 (n : ℚ) = (n : ℚ) := by
  have h : ((n : ℚ) * 100) = ((n * 100 : ℤ) : ℚ) := by push_cast; ring
  rw [pyRound2, h, pyRoundInt_intCast]
  push_cast
  ring

theorem pyRoundInt_nonneg {x : ℚ} (hx : 0 ≤ x) : 0 ≤ pyRoundInt x := by
  have hf : (0 : ℤ) ≤ ⌊x⌋ := Int.floor_nonneg.mpr hx
  unfold pyRoundInt
  dsimp only
  split
  · exact hf
  · split
    · omega
    · split <;> omega

theorem pyRound2_nonneg {x : ℚ} (hx : 0 ≤ x) : 0 ≤ pyRound2 x := by
  have h : (0 : ℤ) ≤ pyRoundInt (x * 100) := pyRoundInt_nonneg (by positivity)
  unfold pyRound2
  exact div_nonneg (by exact_mod_cast h) (by norm_num)

theorem le_foldl_max (xs : List ℚ) (a : ℚ) : a ≤ xs.foldl max a := by
  induction xs generalizing a with
  | nil => simp
  | cons b xs ih =>
    rw [List.foldl_cons]
    exact le_trans (le_max_left a b) (ih (max a b))

theorem mem_le_foldl_max (xs : List ℚ) (a x : ℚ) (hx : x ∈ xs) : x ≤ xs.foldl max a := by
  induction xs generalizing a with
  | nil => cases hx
  | cons b xs ih =>
    rw [List.foldl_cons]
    rcases List.mem_cons.mp hx with h | h
    · subst h
      exact le_trans (le_max_right a x) (le_foldl_max xs (max a x))
    · exact ih (max a b) h

theorem foldl_max_mem (xs : List ℚ) (a : ℚ) : xs.foldl max a = a ∨ xs.foldl max a ∈ xs := by
  induction xs generalizing a with
  | nil => left; rfl
  | cons b xs ih =>
    rw [List.foldl_cons]
    rcases ih (max a b) with h | h
    · rcases max_choice a b with hab | hab
      · left; rw [h, hab]
      · right
        rw [h, hab]
        exact List.mem_cons_self b xs
    · exact Or.inr (List.mem_cons_of_mem b h)

theorem pyMax_mem (l : List ℚ) (hl : l ≠ []) : pyMax l ∈ l := by
  cases l with
  | nil => exact absurd rfl hl
  | cons x xs =>
    show xs.foldl max x ∈ x :: xs
    rcases foldl_max_mem xs x with h | h
    · rw [h]
      exact List.mem_cons_self x xs
    · exact List.mem_cons_of_mem x h

theorem le_pyMax (l : List ℚ) (x : ℚ) (hx : x ∈ l) : x ≤ pyMax l := by
  cases l with
  | nil => cases hx
  | cons y ys =>
    show x ≤ ys.foldl max y
    rcases List.mem_cons.mp hx with h | h
    · subst h
      exact le_foldl_max ys x
    · exact mem_le_foldl_max ys y x h

/-! ## Helper lemmas about the fusion pieces -/

theorem weight_score_of_gate {sim : ℚ} (h : 1/4 < sim) (evidence : List EvidenceItem) :
    weight_score sim evidence = (evidence.map EvidenceItem.weight).sum := by
  unfold weight_score
  rw [show (fun _ : EvidenceItem => decide ((1 : ℚ)/4 < sim)) = fun _ => true from
    funext fun _ => decide_eq_true h]
  rw [List.filter_true]

theorem weight_score_of_nogate {sim : ℚ} (h : ¬ 1/4 < sim) (evidence : List EvidenceItem) :
    weight_score sim evidence = 0 := by
  unfold weight_score
  rw [show (fun _ : EvidenceItem => decide ((1 : ℚ)/4 < sim)) = fun _ => false from
    funext fun _ => decide_eq_false h]
  rw [List.filter_false]
  rfl

theorem weight_score_nonneg {sim : ℚ} {evidence : List EvidenceItem}
    (h : ∀ e ∈ evidence, 0 ≤ e.weight) : 0 ≤ weight_score sim evidence := by
  unfold weight_score
  apply List.sum_nonneg
  intro w hw
  rcases List.mem_map.mp hw with ⟨e, he, rfl⟩
  exact h e (List.mem_of_mem_filter he)

theorem ml_bonus_nonneg (p : ℚ) : 0 ≤ ml_bonus p := by
  unfold ml_bonus
  split <;> norm_num

theorem ml_bonus_cases (p : ℚ) : ml_bonus p = 0 ∨ ml_bonus p = 1/5 := by
  unfold ml_bonus
  split
  · exact Or.inr rfl
  · exact Or.inl rfl

theorem verdict_of_ne_unknown (s : ℚ) : verdict_of s ≠ .UNKNOWN := by
  unfold verdict_of
  split
  · simp
  · split <;> simp

/-- Unfolding `check_fake_news` along its main path: non-empty content and
two successful fetches. -/
theorem check_fake_news_run {K : SimKernel} {st : VecState} {apiN apiG : Option String}
    {netN : Except PyExn NytJson} {netG : Except PyExn GuardJson}
    {mlProb : Str → ℚ} {content : Str} {evN evG : List EvidenceItem}
    (hc : ¬ pyStrip content = [])
    (hN : fetch_nytimes apiN netN = .ok evN)
    (hG : fetch_guardian apiG netG = .ok evG) :
    check_fake_news K st apiN apiG netN netG mlProb content =
      .ok ((similarity_score K st content (evN ++ evG)).1,
        ⟨verdict_of (weight_score (similarity_score K st content (evN ++ evG)).2 (evN ++ evG)
            + ml_bonus (mlProb content)),
          pyRound2 ((weight_score (similarity_score K st content (evN ++ evG)).2 (evN ++ evG)
            + ml_bonus (mlProb content)) * 100),
          some (pyRound2 ((similarity_score K st content (evN ++ evG)).2 * 100)),
          some (evN ++ evG), some fusionExplanation⟩) := by
  unfold check_fake_news
  rw [if_neg hc, hN, hG]

/-- Unfolding `check_fake_news` when the NYTimes fetch raises. -/
theorem check_fake_news_nytError {K : SimKernel} {st : VecState} {apiN apiG : Option String}
    {netN : Except PyExn NytJson} {netG : Except PyExn GuardJson}
    {mlProb : Str → ℚ} {content : Str} {e : PyExn}
    (hc : ¬ pyStrip content = [])
    (hN : fetch_nytimes apiN netN = .error e) :
    check_fake_news K st apiN apiG netN netG mlProb content = .error e := by
  unfold check_fake_news
  rw [if_neg hc, hN]

/-- Unfolding `check_fake_news` when the Guardian fetch raises. -/
theorem check_fake_news_guardError {K : SimKernel} {st : VecState} {apiN apiG : Option String}
    {netN : Except PyExn NytJson} {netG : Except PyExn GuardJson}
    {mlProb : Str → ℚ} {content : Str} {evN : List EvidenceItem} {e : PyExn}
    (hc : ¬ pyStrip content = [])
    (hN : fetch_nytimes apiN netN = .ok evN)
    (hG : fetch_guardian apiG netG = .error e) :
    check_fake_news K st apiN apiG netN netG mlProb content = .error e := by
  unfold check_fake_news
  rw [if_neg hc, hN, hG]

/-- Any successful run on non-empty content went through the main path:
both fetches succeeded and the verdict is the thresholded fusion score. -/
theorem check_fake_news_ok_shape {K : SimKernel} {st : VecState} {apiN apiG : Option String}
    {netN : Except PyExn NytJson} {netG : Except PyExn GuardJson}
    {mlProb : Str → ℚ} {content : Str} {st' : VecState} {r : Response}
    (hc : ¬ pyStrip content = [])
    (h : check_fake_news K st apiN apiG netN netG mlProb content = .ok (st', r)) :
    ∃ evN evG, fetch_nytimes apiN netN = .ok evN ∧ fetch_guardian apiG netG = .ok evG ∧
      r = ⟨verdict_of (weight_score (similarity_score K st content (evN ++ evG)).2 (evN ++ evG)
            + ml_bonus (mlProb content)),
          pyRound2 ((weight_score (similarity_score K st content (evN ++ evG)).2 (evN ++ evG)
            + ml_bonus (mlProb content)) * 100),
          some (pyRound2 ((similarity_score K st content (evN ++ evG)).2 * 100)),
          some (evN ++ evG), some fusionExplanation⟩ := by
  cases hN : fetch_nytimes apiN netN with
  | error e =>
    rw [check_fake_news_nytError hc hN] at h
    cases h
  | ok evN =>
    cases hG : fetch_guardian apiG netG with
    | error e =>
      rw [check_fake_news_guardError hc hN hG] at h
      cases h
    | ok evG =>
      rw [check_fake_news_run hc hN hG] at h
      injection h with hpair
      injection hpair with hst hr
      exact ⟨evN, evG, rfl, rfl, hr.symm⟩

/-! ## Claim theorems -/

/-- C3 (counterexample): at blur variance 40 and noise 10 — the claim's own
example inputs, dimensions being unused by the code — `analyze_image`
returns confidence 1 and verdict REAL, not the claimed DEEPFAKE with
confidence 100: the code scores with
`min(100, int((noise + 1000/(blur+1))/20))` and `> 60`, not with the
claimed 40/30/30 point table. -/
theorem analyze_image_formula_example :
    analyze_image 40 10 = ⟨"REAL", 1, "Image forensic analysis"⟩ ∧
    (1 : ℤ) ≠ 100 ∧ "REAL" ≠ "FAKE" := by
  have h1 : ((10 : ℚ) + 1000 / (40 + 1)) / 20 = 141/82 := by norm_num
  have h2 : pyInt (((10 : ℚ) + 1000 / (40 + 1)) / 20) = 1 := by
    unfold pyInt
    rw [if_pos (by rw [h1]; norm_num), h1, Int.floor_eq_iff]
    constructor <;> norm_num
  refine ⟨?_, by decide, by decide⟩
  unfold analyze_image
  rw [h2]
  norm_num

/-- C3 (amended): for every decoded image with nonnegative blur variance and
noise, `analyze_image` computes
`confidence = min(100, int((noise + 1000/(blur_score+1))/20))` — the image
dimensions are not used — the confidence lies in [0, 100], and the verdict
is FAKE exactly when the confidence exceeds 60 (so exactly 60 is REAL),
else REAL. -/
theorem analyze_image_spec (blur_score noise : ℚ) (hb : 0 ≤ blur_score) (hn : 0 ≤ noise) :
    analyze_image blur_score noise =
      ⟨if 60 < min 100 (pyInt ((noise + 1000 / (blur_score + 1)) / 20)) then "FAKE" else "REAL",
        min 100 (pyInt ((noise + 1000 / (blur_score + 1)) / 20)), "Image forensic analysis"⟩ ∧
    0 ≤ (analyze_image blur_score noise).confidence ∧
    (analyze_image blur_score noise).confidence ≤ 100 ∧
    ((analyze_image blur_score noise).verdict = "FAKE" ↔
      60 < (analyze_image blur_score noise).confidence) := by
  have hq : 0 ≤ (noise + 1000 / (blur_score + 1)) / 20 := by positivity
  have hpi : 0 ≤ pyInt ((noise + 1000 / (blur_score + 1)) / 20) := by
    unfold pyInt
    rw [if_pos hq]
    exact Int.floor_nonneg.mpr hq
  refine ⟨rfl, le_min (by norm_num) hpi, min_le_left _ _, ?_⟩
  show (if 60 < min 100 (pyInt ((noise + 1000 / (blur_score + 1)) / 20)) then "FAKE" else "REAL")
      = "FAKE" ↔ _
  split
  · simpa
  · next hlt =>
    constructor
    · intro hcontr
      exact absurd hcontr (by decide)
    · intro hcontr
      exact absurd hcontr hlt

/-- C3 amended, instantiated: a sharp, noisy image (blur 200, noise 25) is
within range and labelled by the 60 cutoff. -/
theorem analyze_image_spec_witness :
    0 ≤ (analyze_image 200 25).confidence ∧ (analyze_image 200 25).confidence ≤ 100 ∧
    ((analyze_image 200 25).verdict = "FAKE" ↔ 60 < (analyze_image 200 25).confidence) := by
  have h := analyze_image_spec 200 25 (by norm_num) (by norm_num)
  exact ⟨h.2.1, h.2.2.1, h.2.2.2⟩

/-- C4: the verdict label is the fixed threshold table of `final_score`:
at least 0.6 gives REAL, at least 0.35 but below 0.6 gives UNCERTAIN,
below 0.35 gives FAKE; the boundaries 0.6 and 0.35 give REAL and UNCERTAIN
respectively; and every resolved text run of `check_fake_news` labels with
exactly this function of its fused score. -/
theorem verdict_threshold_table :
    (∀ s : ℚ,
      (3/5 ≤ s → verdict_of s = .REAL) ∧
      (7/20 ≤ s → s < 3/5 → verdict_of s = .UNCERTAIN) ∧
      (s < 7/20 → verdict_of s = .FAKE)) ∧
    verdict_of (3/5) = .REAL ∧ verdict_of (7/20) = .UNCERTAIN ∧
    (∀ (K : SimKernel) (st : VecState) (apiN apiG : Option String)
      (netN : Except PyExn NytJson) (netG : Except PyExn GuardJson)
      (mlProb : Str → ℚ) (content : Str) (evN evG : List EvidenceItem),
      ¬ pyStrip content = [] →
      fetch_nytimes apiN netN = .ok evN →
      fetch_guardian apiG netG = .ok evG →
      (check_fake_news K st apiN apiG netN netG mlProb content).map (fun p => p.2.verdict)
        = .ok (verdict_of (weight_score (similarity_score K st content (evN ++ evG)).2 (evN ++ evG)
            + ml_bonus (mlProb content)))) := by
  refine ⟨fun s => ⟨?_, ?_, ?_⟩, ?_, ?_, ?_⟩
  · intro h
    unfold verdict_of
    rw [if_pos h]
  · intro h1 h2
    unfold verdict_of
    rw [if_neg (by linarith), if_pos h1]
  · intro h
    unfold verdict_of
    rw [if_neg (by linarith), if_neg (by linarith)]
  · unfold verdict_of
    rw [if_pos le_rfl]
  · unfold verdict_of
    rw [if_neg (by norm_num), if_pos le_rfl]
  · intro K st apiN apiG netN netG mlProb content evN evG hc hN hG
    rw [check_fake_news_run hc hN hG]
    rfl

/-- C4, instantiated at sample scores on each side of the thresholds and at
a concrete engine run. -/
theorem verdict_threshold_table_witness :
    verdict_of (7/10) = .REAL ∧ verdict_of (1/2) = .UNCERTAIN ∧ verdict_of (1/10) = .FAKE ∧
    (check_fake_news zerosKernel none none none (.ok emptyNytJson) (.ok emptyGuardJson)
        neverSure sampleContent).map (fun p => p.2.verdict)
      = .ok (verdict_of
          (weight_score (similarity_score zerosKernel none sampleContent ([] ++ [])).2 ([] ++ [])
            + ml_bonus (neverSure sampleContent))) :=
  ⟨(verdict_threshold_table.1 (7/10)).1 (by norm_num),
    (verdict_threshold_table.1 (1/2)).2.1 (by norm_num) (by norm_num),
    (verdict_threshold_table.1 (1/10)).2.2 (by norm_num),
    verdict_threshold_table.2.2.2 zerosKernel none none none _ _ neverSure sampleContent [] []
      (by decide) rfl rfl⟩

/-- C5: `similarity_score` returns exactly 0 on empty evidence (leaving the
vectorizer untouched, no crash), and on non-empty evidence returns the
maximum of the cosine similarities between the content vector and each
evidence-title vector produced by the TF-IDF pipeline fitted on
`[text] + titles` (one score per title). -/
theorem similarity_score_spec (K : SimKernel) (st : VecState) (text : Str) :
    similarity_score K st text [] = (st, 0) ∧
    ∀ headlines, headlines ≠ [] →
      (similarity_score K st text headlines).2 ∈ K.scores text (headlines.map (·.title)) ∧
      (∀ s ∈ K.scores text (headlines.map (·.title)),
        s ≤ (similarity_score K st text headlines).2) ∧
      (K.scores text (headlines.map (·.title))).length = headlines.length := by
  refine ⟨rfl, fun headlines hh => ?_⟩
  cases headlines with
  | nil => exact absurd rfl hh
  | cons a rest =>
    have hlen : (K.scores text ((a :: rest).map (·.title))).length = (a :: rest).length := by
      rw [K.scores_length, List.length_map]
    have hne : K.scores text ((a :: rest).map (·.title)) ≠ [] := by
      apply List.length_pos.mp
      rw [hlen]
      simp
    have hval : (similarity_score K st text (a :: rest)).2
        = pyMax (K.scores text ((a :: rest).map (·.title))) := rfl
    refine ⟨?_, ?_, hlen⟩
    · rw [hval]
      exact pyMax_mem _ hne
    · intro s hs
      rw [hval]
      exact le_pyMax _ s hs

/-- C5, instantiated: empty evidence gives the pair `(none, 0)`, and a
one-item evidence list gives a score drawn from the kernel's score row. -/
theorem similarity_score_spec_witness :
    similarity_score onesKernel none sampleContent [] = (none, 0) ∧
    (similarity_score onesKernel none sampleContent oneHeadlineItems).2
      ∈ onesKernel.scores sampleContent (oneHeadlineItems.map (·.title)) := by
  have h := similarity_score_spec onesKernel none sampleContent
  exact ⟨h.1, (h.2 oneHeadlineItems (by simp [oneHeadlineItems])).1⟩

/-- C1 (counterexample): with six evidence items all passing the similarity
gate (three NYTimes at weight 0.45, three Guardian at 0.35) and a confident
classifier, the fusion score is 2.4 + 0.2 = 2.6 — nothing clamps it to
[0, 1] — and the returned confidence is 260, outside [0, 100]. -/
theorem fusion_confidence_overflow_example :
    (check_fake_news onesKernel none (some "k") (some "k") (.ok bigNytJson) (.ok bigGuardJson)
        alwaysSure sampleContent).map (fun p => (p.2.verdict, p.2.confidence))
      = .ok (.REAL, 260) ∧ ¬ ((260 : ℚ) ≤ 100) := by
  have hN : fetch_nytimes (some "k") (.ok bigNytJson) = .ok nytItems := rfl
  have hG : fetch_guardian (some "k") (.ok bigGuardJson) = .ok guardItems := rfl
  have hsim : (similarity_score onesKernel none sampleContent (nytItems ++ guardItems)).2 = 1 := by
    show pyMax (onesKernel.scores sampleContent ((nytItems ++ guardItems).map (·.title))) = 1
    simp [onesKernel, nytItems, guardItems, pyMax]
  have hws : weight_score 1 (nytItems ++ guardItems) = 12/5 := by
    rw [weight_score_of_gate (by norm_num)]
    show ((9 : ℚ)/20 + (9/20 + (9/20 + (7/20 + (7/20 + (7/20 + 0)))))) = 12/5
    norm_num
  have hb : ml_bonus (alwaysSure sampleContent) = 1/5 := by
    unfold alwaysSure ml_bonus
    rw [if_pos (by norm_num)]
  constructor
  · rw [check_fake_news_run (by decide) hN hG]
    show Except.ok _ = _
    rw [hsim, hws, hb]
    have h1 : (12/5 + 1/5 : ℚ) = 13/5 := by norm_num
    rw [h1]
    have h2 : verdict_of (13/5) = .REAL := by
      unfold verdict_of
      rw [if_pos (by norm_num)]
    have h3 : pyRound2 (13/5 * 100) = 260 := by
      rw [show (13/5 * 100 : ℚ) = ((260 : ℤ) : ℚ) by norm_num, pyRound2_intCast]
      norm_num
    rw [h2, h3]
  · norm_num

/-- C1 (amended): on the main path (non-empty content, both fetches
succeeding) the fused score is `weight_score + ml_bonus` with no clamping,
the returned confidence is `round(final_score * 100, 2)` of that unclamped
score, and it is nonnegative whenever the fetched evidence weights are —
but nothing bounds it above by 100. -/
theorem fusion_confidence_unclamped
    (K : SimKernel) (st : VecState) (apiN apiG : Option String)
    (netN : Except PyExn NytJson) (netG : Except PyExn GuardJson)
    (mlProb : Str → ℚ) (content : Str) (evN evG : List EvidenceItem)
    (hc : ¬ pyStrip content = [])
    (hN : fetch_nytimes apiN netN = .ok evN)
    (hG : fetch_guardian apiG netG = .ok evG)
    (hw : ∀ e ∈ evN ++ evG, 0 ≤ EvidenceItem.weight e) :
    (check_fake_news K st apiN apiG netN netG mlProb content).map (fun p => p.2.confidence)
      = .ok (pyRound2 ((weight_score (similarity_score K st content (evN ++ evG)).2 (evN ++ evG)
          + ml_bonus (mlProb content)) * 100)) ∧
    0 ≤ pyRound2 ((weight_score (similarity_score K st content (evN ++ evG)).2 (evN ++ evG)
        + ml_bonus (mlProb content)) * 100) := by
  constructor
  · rw [check_fake_news_run hc hN hG]
    rfl
  · apply pyRound2_nonneg
    have h1 : 0 ≤ weight_score (similarity_score K st content (evN ++ evG)).2 (evN ++ evG) :=
      weight_score_nonneg hw
    have h2 := ml_bonus_nonneg (mlProb content)
    exact mul_nonneg (add_nonneg h1 h2) (by norm_num)

/-- C1 amended, instantiated at the six-item run: the unclamped confidence
is at least 0. -/
theorem fusion_confidence_unclamped_witness :
    0 ≤ pyRound2 ((weight_score
        (similarity_score onesKernel none sampleContent (nytItems ++ guardItems)).2
        (nytItems ++ guardItems) + ml_bonus (alwaysSure sampleContent)) * 100) :=
  (fusion_confidence_unclamped onesKernel none (some "k") (some "k")
    (.ok bigNytJson) (.ok bigGuardJson) alwaysSure sampleContent nytItems guardItems
    (by decide) rfl rfl
    (by
      intro e he
      simp [nytItems, guardItems] at he
      rcases he with rfl | rfl | rfl | rfl | rfl | rfl <;> norm_num)).2

/-- C2 (counterexample): the evidence calls carry no timeout at all, and a
failing source is not converted to an empty contribution: with a valid API
key, a network failure of the NYTimes call propagates out of
`fetch_nytimes` and fails the whole `check_fake_news` request, discarding
the healthy Guardian data with it. -/
theorem evidence_failure_fails_request_example :
    nytimesRequest.timeout = none ∧ guardianRequest.timeout = none ∧
    fetch_nytimes (some "k") (.error .requestException) = .error .requestException ∧
    check_fake_news onesKernel none (some "k") (some "k") (.error .requestException)
        (.ok bigGuardJson) neverSure sampleContent = .error .requestException :=
  ⟨rfl, rfl, rfl, check_fake_news_nytError (by decide) rfl⟩

/-- C2 (amended): a source contributes an empty evidence list only when its
API key is unset (the call is then skipped); an issued call passes no
timeout to `requests.get`; and any failure of an issued call — a network
or JSON exception, or a missing key in the returned payload — raises out
of the fetcher instead of yielding an empty list, and `check_fake_news`
fails the overall request with it. -/
theorem evidence_failure_propagation :
    nytimesRequest.timeout = none ∧ guardianRequest.timeout = none ∧
    (∀ apiKey net, truthy apiKey = false → fetch_nytimes apiKey net = .ok []) ∧
    (∀ apiKey net, truthy apiKey = false → fetch_guardian apiKey net = .ok []) ∧
    (∀ apiKey e, truthy apiKey = true → fetch_nytimes apiKey (.error e) = .error e) ∧
    (∀ apiKey e, truthy apiKey = true → fetch_guardian apiKey (.error e) = .error e) ∧
    (∀ apiKey, truthy apiKey = true → fetch_nytimes apiKey (.ok badNytJson) = .error .keyError) ∧
    (∀ (K : SimKernel) (st : VecState) (apiN apiG : Option String)
      (netG : Except PyExn GuardJson) (mlProb : Str → ℚ) (content : Str) (e : PyExn),
      ¬ pyStrip content = [] → truthy apiN = true →
      check_fake_news K st apiN apiG (.error e) netG mlProb content = .error e) := by
  refine ⟨rfl, rfl, ?_, ?_, ?_, ?_, ?_, ?_⟩
  · intro apiKey net h
    simp [fetch_nytimes, h]
  · intro apiKey net h
    simp [fetch_guardian, h]
  · intro apiKey e h
    simp [fetch_nytimes, h]
  · intro apiKey e h
    simp [fetch_guardian, h]
  · intro apiKey h
    simp [fetch_nytimes, h, badNytJson, mapExcept, nytDocItem]
  · intro K st apiN apiG netG mlProb content e hc hA
    exact check_fake_news_nytError hc (by simp [fetch_nytimes, hA])

/-- C2 amended, instantiated: a keyless fetch is skipped; keyed fetches
propagate a network error and a malformed payload; the overall request
fails with the raised error. -/
theorem evidence_failure_propagation_witness :
    fetch_nytimes none (.error .requestException) = .ok [] ∧
    fetch_guardian (some "k") (.error .jsonError) = .error .jsonError ∧
    fetch_nytimes (some "k") (.ok badNytJson) = .error .keyError ∧
    check_fake_news onesKernel none (some "k") none (.error .jsonError) (.ok emptyGuardJson)
        neverSure sampleContent = .error .jsonError :=
  ⟨evidence_failure_propagation.2.2.1 none (.error .requestException) rfl,
   evidence_failure_propagation.2.2.2.2.2.1 (some "k") .jsonError rfl,
   evidence_failure_propagation.2.2.2.2.2.2.1 (some "k") rfl,
   evidence_failure_propagation.2.2.2.2.2.2.2 onesKernel none (some "k") none
     (.ok emptyGuardJson) neverSure sampleContent .jsonError (by decide) rfl⟩

/-- C6: `check_fake_news` returns the bare `{UNKNOWN, confidence 0}`
response — with no similarity, evidence or explanation fields computed —
exactly when the resolved content is empty or whitespace-only, and the
threshold ladder itself never yields UNKNOWN for any score. -/
theorem unknown_reserved_for_empty_content :
    (∀ (K : SimKernel) (st : VecState) (apiN apiG : Option String)
      (netN : Except PyExn NytJson) (netG : Except PyExn GuardJson)
      (mlProb : Str → ℚ) (content : Str),
      pyStrip content = [] →
      check_fake_news K st apiN apiG netN netG mlProb content = .ok (st, unknownResponse)) ∧
    (∀ s : ℚ, verdict_of s ≠ .UNKNOWN) ∧
    (∀ (K : SimKernel) (st : VecState) (apiN apiG : Option String)
      (netN : Except PyExn NytJson) (netG : Except PyExn GuardJson)
      (mlProb : Str → ℚ) (content : Str) (st' : VecState) (r : Response),
      check_fake_news K st apiN apiG netN netG mlProb content = .ok (st', r) →
      r.verdict = .UNKNOWN →
      pyStrip content = [] ∧ r = unknownResponse) := by
  refine ⟨?_, verdict_of_ne_unknown, ?_⟩
  · intro K st apiN apiG netN netG mlProb content h
    unfold check_fake_news
    rw [if_pos h]
  · intro K st apiN apiG netN netG mlProb content st' r h hv
    by_cases hc : pyStrip content = []
    · unfold check_fake_news at h
      rw [if_pos hc] at h
      injection h with hpair
      injection hpair with hst hr
      exact ⟨hc, hr.symm⟩
    · obtain ⟨evN, evG, hN, hG, hr⟩ := check_fake_news_ok_shape hc h
      subst hr
      exact absurd hv (verdict_of_ne_unknown _)

/-- C6, instantiated at a whitespace-only content. -/
theorem unknown_reserved_for_empty_content_witness :
    check_fake_news onesKernel none none none (.ok emptyNytJson) (.ok emptyGuardJson)
        neverSure "   ".data = .ok (none, unknownResponse) ∧
    verdict_of 0 ≠ .UNKNOWN ∧
    (pyStrip "   ".data = [] ∧ unknownResponse = unknownResponse) :=
  ⟨unknown_reserved_for_empty_content.1 onesKernel none none none
      (.ok emptyNytJson) (.ok emptyGuardJson) neverSure ("   ".data) (by decide),
   unknown_reserved_for_empty_content.2.1 0,
   unknown_reserved_for_empty_content.2.2 onesKernel none none none
     (.ok emptyNytJson) (.ok emptyGuardJson) neverSure ("   ".data) none unknownResponse
     (unknown_reserved_for_empty_content.1 onesKernel none none none
       (.ok emptyNytJson) (.ok emptyGuardJson) neverSure ("   ".data) (by decide))
     rfl⟩

/-- C7 (counterexample): a 5-character text is rejected by the backend
endpoint with an HTTP 400 error, not a `{UNKNOWN, 0}` verdict; and the
ml_api engine scores a 10-character text through the full classifier +
fusion pipeline — returning a thresholded FAKE with all scoring fields
present — instead of returning UNKNOWN. -/
theorem short_text_rejected_example :
    fake_news_check (fun _ => 0) (fun _ => 1/2) [] [] (some "short".data) none
      = .error (.badRequest "Text too short for reliable analysis (min 50 characters)") ∧
    check_fake_news zerosKernel none none none (.ok emptyNytJson) (.ok emptyGuardJson)
        neverSure "tiny claim".data
      = .ok (none, ⟨.FAKE, 0, some 0, some [], some fusionExplanation⟩) := by
  constructor
  · rfl
  · have hN : fetch_nytimes none (.ok emptyNytJson) = .ok [] := rfl
    have hG : fetch_guardian none (.ok emptyGuardJson) = .ok [] := rfl
    rw [check_fake_news_run (by decide) hN hG]
    have hsim1 : (similarity_score zerosKernel none ("tiny claim".data) ([] ++ [])).1
        = none := rfl
    have hsim2 : (similarity_score zerosKernel none ("tiny claim".data) ([] ++ [])).2
        = 0 := rfl
    rw [hsim1, hsim2]
    have hws : weight_score 0 ([] ++ []) = 0 := rfl
    rw [hws]
    have hb : ml_bonus (neverSure ("tiny claim".data)) = 0 := by
      unfold neverSure ml_bonus
      rw [if_neg (by norm_num)]
    rw [hb]
    have h0 : (0 + 0 : ℚ) = 0 := by norm_num
    rw [h0]
    have hv : verdict_of 0 = .FAKE := by
      unfold verdict_of
      rw [if_neg (by norm_num), if_neg (by norm_num)]
    have hp : pyRound2 ((0 : ℚ) * 100) = 0 := by
      rw [show ((0 : ℚ) * 100) = ((0 : ℤ) : ℚ) by norm_num, pyRound2_intCast]
      norm_num
    rw [hv, hp]
    rfl

/-- C7 (amended): resolved text shorter than 50 characters is rejected by
the backend endpoint with an HTTP 400 "Text too short" error — not a
`{UNKNOWN, 0}` verdict — while the ml_api fusion endpoint applies no
50-character minimum: any non-whitespace text, however short, is passed to
the classifier and fusion scoring and receives a thresholded verdict. -/
theorem short_text_not_unknown :
    (∀ (predict : Str → ℤ) (predictProba : Str → ℚ) (scraped nytAbstract : Str) (s : Str),
      s ≠ [] → s.length < 50 →
      fake_news_check predict predictProba scraped nytAbstract (some s) none
        = .error (.badRequest "Text too short for reliable analysis (min 50 characters)")) ∧
    (∀ (K : SimKernel) (st : VecState) (apiN apiG : Option String)
      (netN : Except PyExn NytJson) (netG : Except PyExn GuardJson)
      (mlProb : Str → ℚ) (content : Str) (evN evG : List EvidenceItem),
      content.length < 50 → ¬ pyStrip content = [] →
      fetch_nytimes apiN netN = .ok evN → fetch_guardian apiG netG = .ok evG →
      (check_fake_news K st apiN apiG netN netG mlProb content).map (fun p => p.2.verdict)
        = .ok (verdict_of
            (weight_score (similarity_score K st content (evN ++ evG)).2 (evN ++ evG)
              + ml_bonus (mlProb content)))) := by
  constructor
  · intro predict predictProba scraped nytAbstract s hne hlen
    obtain ⟨a, t, rfl⟩ : ∃ a t, s = a :: t := by
      cases s with
      | nil => exact absurd rfl hne
      | cons a t => exact ⟨a, t, rfl⟩
    unfold fake_news_check
    simp only [truthyL, List.isEmpty_cons, Bool.not_false, Bool.not_true, Bool.false_and,
      Bool.and_false, Bool.false_eq_true, if_false, Option.getD_some]
    rw [if_pos hlen]
  · intro K st apiN apiG netN netG mlProb content evN evG _ hc hN hG
    rw [check_fake_news_run hc hN hG]
    rfl

/-- C7 amended, instantiated: a 3-character text gets the backend 400, and
a 9-character text gets a fused verdict from the ml_api engine. -/
theorem short_text_not_unknown_witness :
    fake_news_check (fun _ => 0) (fun _ => 1/2) [] [] (some "abc".data) none
      = .error (.badRequest "Text too short for reliable analysis (min 50 characters)") ∧
    (check_fake_news zerosKernel none none none (.ok emptyNytJson) (.ok emptyGuardJson)
        neverSure "tiny news".data).map (fun p => p.2.verdict)
      = .ok (verdict_of
          (weight_score (similarity_score zerosKernel none ("tiny news".data) ([] ++ [])).2
            ([] ++ []) + ml_bonus (neverSure ("tiny news".data)))) :=
  ⟨short_text_not_unknown.1 (fun _ => 0) (fun _ => 1/2) [] [] ("abc".data)
      (by decide) (by decide),
   short_text_not_unknown.2 zerosKernel none none none (.ok emptyNytJson) (.ok emptyGuardJson)
      neverSure ("tiny news".data) [] [] (by decide) (by decide) rfl rfl⟩

theorem dropWhile_isPyWs_replicate (n : ℕ) :
    (List.replicate n 'a').dropWhile isPyWs = List.replicate n 'a' := by
  cases n with
  | zero => rfl
  | succ m =>
    rw [List.replicate_succ, List.dropWhile_cons, if_neg (by decide)]

theorem pyStrip_replicate (n : ℕ) :
    pyStrip (List.replicate n 'a') = List.replicate n 'a' := by
  unfold pyStrip
  rw [dropWhile_isPyWs_replicate, List.reverse_replicate, dropWhile_isPyWs_replicate,
    List.reverse_replicate]

/-- C8 (counterexample): two resolved texts agreeing on their first 10,000
characters (10,001 vs 10,000 copies of `a`) get different ML probabilities
and hence different fused confidences (20 vs 0): the fusion endpoint feeds
the full, untruncated content to the classifier, so text beyond the
10,000th character does influence the ML probability used in fusion. -/
theorem fusion_untruncated_example :
    longContent.take 10000 = longContentTrunc.take 10000 ∧
    check_fake_news zerosKernel none none none (.ok emptyNytJson) (.ok emptyGuardJson)
        lengthProbe longContent
      = .ok (none, ⟨.FAKE, 20, some 0, some [], some fusionExplanation⟩) ∧
    check_fake_news zerosKernel none none none (.ok emptyNytJson) (.ok emptyGuardJson)
        lengthProbe longContentTrunc
      = .ok (none, ⟨.FAKE, 0, some 0, some [], some fusionExplanation⟩) := by
  have hp0 : pyRound2 ((0 : ℚ) * 100) = 0 := by
    rw [show ((0 : ℚ) * 100) = ((0 : ℤ) : ℚ) by norm_num, pyRound2_intCast]
    norm_num
  refine ⟨?_, ?_, ?_⟩
  · unfold longContent longContentTrunc
    rw [List.take_replicate, List.take_replicate]
    congr 1
  · have hc1 : ¬ pyStrip longContent = [] := by
      unfold longContent
      rw [pyStrip_replicate]
      intro h
      have hl := congrArg List.length h
      rw [List.length_replicate, List.length_nil] at hl
      exact absurd hl (by norm_num)
    have hN : fetch_nytimes none (.ok emptyNytJson) = .ok [] := rfl
    have hG : fetch_guardian none (.ok emptyGuardJson) = .ok [] := rfl
    rw [check_fake_news_run hc1 hN hG]
    have hml : lengthProbe longContent = 1 := by
      unfold lengthProbe longContent
      rw [if_pos (by rw [List.length_replicate]; norm_num)]
    have hsim1 : (similarity_score zerosKernel none longContent ([] ++ [])).1 = none := rfl
    have hsim2 : (similarity_score zerosKernel none longContent ([] ++ [])).2 = 0 := rfl
    rw [hsim1, hsim2]
    have hws : weight_score 0 ([] ++ []) = 0 := rfl
    rw [hws, hml]
    have hb : ml_bonus (1 : ℚ) = 1/5 := by
      unfold ml_bonus
      rw [if_pos (by norm_num)]
    rw [hb]
    rw [show (0 + 1/5 : ℚ) = 1/5 by norm_num]
    have hv : verdict_of (1/5) = .FAKE := by
      unfold verdict_of
      rw [if_neg (by norm_num), if_neg (by norm_num)]
    have hp : pyRound2 ((1/5 : ℚ) * 100) = 20 := by
      rw [show ((1/5 : ℚ) * 100) = ((20 : ℤ) : ℚ) by norm_num, pyRound2_intCast]
      norm_num
    rw [hv, hp, hp0]
    rfl
  · have hc2 : ¬ pyStrip longContentTrunc = [] := by
      unfold longContentTrunc
      rw [pyStrip_replicate]
      intro h
      have hl := congrArg List.length h
      rw [List.length_replicate, List.length_nil] at hl
      exact absurd hl (by norm_num)
    have hN : fetch_nytimes none (.ok emptyNytJson) = .ok [] := rfl
    have hG : fetch_guardian none (.ok emptyGuardJson) = .ok [] := rfl
    rw [check_fake_news_run hc2 hN hG]
    have hml : lengthProbe longContentTrunc = 0 := by
      unfold lengthProbe longContentTrunc
      rw [if_neg (by rw [List.length_replicate]; norm_num)]
    have hsim1 : (similarity_score zerosKernel none longContentTrunc ([] ++ [])).1 = none := rfl
    have hsim2 : (similarity_score zerosKernel none longContentTrunc ([] ++ [])).2 = 0 := rfl
    rw [hsim1, hsim2]
    have hws : weight_score 0 ([] ++ []) = 0 := rfl
    rw [hws, hml]
    have hb : ml_bonus (0 : ℚ) = 0 := by
      unfold ml_bonus
      rw [if_neg (by norm_num)]
    rw [hb]
    rw [show (0 + 0 : ℚ) = 0 by norm_num]
    have hv : verdict_of 0 = .FAKE := by
      unfold verdict_of
      rw [if_neg (by norm_num), if_neg (by norm_num)]
    rw [hv, hp0]
    rfl

/-- C8 (amended): the 10,000-character truncation exists only in the
backend classifier-only endpoint, whose result is invariant under
truncating the input text to 10,000 characters; the ml_api fusion engine
applies the classifier to the full resolved content — its result depends
on the classifier only through its value at the untruncated content. -/
theorem classifier_truncation_split :
    (∀ (predict : Str → ℤ) (predictProba : Str → ℚ) (scraped nytAbstract : Str)
      (dataUrl : Option Str) (s : Str), 50 ≤ s.length →
      fake_news_check predict predictProba scraped nytAbstract (some s) dataUrl
        = fake_news_check predict predictProba scraped nytAbstract (some (s.take 10000)) dataUrl) ∧
    (∀ (K : SimKernel) (st : VecState) (apiN apiG : Option String)
      (netN : Except PyExn NytJson) (netG : Except PyExn GuardJson)
      (f g : Str → ℚ) (content : Str), f content = g content →
      check_fake_news K st apiN apiG netN netG f content
        = check_fake_news K st apiN apiG netN netG g content) := by
  constructor
  · intro predict predictProba scraped nytAbstract dataUrl s hlen
    have hne : s ≠ [] := by
      intro h
      rw [h] at hlen
      simp at hlen
    have hlen1 : ¬ s.length < 50 := by omega
    have hlen2 : ¬ (s.take 10000).length < 50 := by
      rw [List.length_take]
      omega
    have hne2 : (s.take 10000).isEmpty = false := by
      have hlt : 0 < (s.take 10000).length := by
        rw [List.length_take]
        omega
      cases h : s.take 10000 with
      | nil =>
        rw [h] at hlt
        simp at hlt
      | cons a t => rfl
    have hne1 : s.isEmpty = false := by
      cases s with
      | nil => exact absurd rfl hne
      | cons a t => rfl
    have htake : (s.take 10000).take 10000 = s.take 10000 := by
      rw [List.take_take, Nat.min_self]
    unfold fake_news_check
    simp only [truthyL, hne1, hne2, Bool.not_false, Bool.not_true, Bool.false_and,
      Bool.and_false, Bool.false_eq_true, if_false, Option.getD_some]
    rw [if_neg hlen1, if_neg hlen2, htake]
  · intro K st apiN apiG netN netG f g content hfg
    simp only [check_fake_news, hfg]

/-- C8 amended, instantiated: a 60-character text is scored identically to
its (identity) 10,000-character truncation, and two classifiers agreeing
on the sample content yield identical fusion results. -/
theorem classifier_truncation_split_witness :
    fake_news_check (fun _ => 0) (fun _ => 1/2) [] [] (some (List.replicate 60 'a')) none
      = fake_news_check (fun _ => 0) (fun _ => 1/2) [] []
          (some ((List.replicate 60 'a').take 10000)) none ∧
    check_fake_news zerosKernel none none none (.ok emptyNytJson) (.ok emptyGuardJson)
        neverSure sampleContent
      = check_fake_news zerosKernel none none none (.ok emptyNytJson) (.ok emptyGuardJson)
          (fun _ => 1/2) sampleContent :=
  ⟨classifier_truncation_split.1 (fun _ => 0) (fun _ => 1/2) [] [] none
      (List.replicate 60 'a') (by rw [List.length_replicate]; norm_num),
   classifier_truncation_split.2 zerosKernel none none none (.ok emptyNytJson)
      (.ok emptyGuardJson) neverSure (fun _ => 1/2) sampleContent rfl⟩

/-- C9 (counterexample): an evaluation that starts with the shared
`similarity_vectorizer` unfitted (state `none`) finishes with it refitted
on the request corpus: the process-wide vectorizer IS mutated during a
text evaluation with nonempty evidence, contradicting the no-shared-state-
mutation half of the claim. -/
theorem vectorizer_mutation_example :
    (check_fake_news onesKernel none (some "k") none (.ok oneNytJson) (.ok emptyGuardJson)
        neverSure sampleContent).map (fun p => p.1)
      = .ok (some (sampleContent, ["Some headline"])) ∧
    some (sampleContent, ["Some headline"]) ≠ (none : VecState) := by
  constructor
  · have hN : fetch_nytimes (some "k") (.ok oneNytJson) = .ok oneHeadlineItems := rfl
    have hG : fetch_guardian none (.ok emptyGuardJson) = .ok [] := rfl
    rw [check_fake_news_run (by decide) hN hG]
    rfl
  · simp

/-- C9 (amended): the verdict/confidence output of `check_fake_news` does
not depend on the prior state of the shared vectorizer, so two runs with
identical resolved text, classifier output and evidence outcomes return
identical responses (determinism) — even though the vectorizer state
itself is rewritten during each run with nonempty evidence. -/
theorem fusion_output_state_independent
    (K : SimKernel) (st1 st2 : VecState) (apiN apiG : Option String)
    (netN : Except PyExn NytJson) (netG : Except PyExn GuardJson)
    (mlProb : Str → ℚ) (content : Str) :
    (check_fake_news K st1 apiN apiG netN netG mlProb content).map (fun p => p.2)
      = (check_fake_news K st2 apiN apiG netN netG mlProb content).map (fun p => p.2) := by
  by_cases hc : pyStrip content = []
  · unfold check_fake_news
    rw [if_pos hc, if_pos hc]
    rfl
  · cases hN : fetch_nytimes apiN netN with
    | error e =>
      rw [check_fake_news_nytError hc hN, check_fake_news_nytError hc hN]
    | ok evN =>
      cases hG : fetch_guardian apiG netG with
      | error e =>
        rw [check_fake_news_guardError hc hN hG, check_fake_news_guardError hc hN hG]
      | ok evG =>
        rw [check_fake_news_run hc hN hG, check_fake_news_run hc hN hG]
        have hsim : (similarity_score K st1 content (evN ++ evG)).2
            = (similarity_score K st2 content (evN ++ evG)).2 := by
          by_cases he : (evN ++ evG).isEmpty = true
          · simp [similarity_score, he]
          · simp [similarity_score, he]
        simp only [Except.map]
        rw [hsim]

/-- C10: with non-empty resolved text and both evidence sources returning
empty lists, the fused score is the ML bonus alone — exactly 0 or 0.2,
always below the 0.35 threshold — so the verdict is FAKE regardless of how
confident the classifier is. -/
theorem empty_evidence_fake
    (K : SimKernel) (st : VecState) (apiN apiG : Option String)
    (netN : Except PyExn NytJson) (netG : Except PyExn GuardJson)
    (mlProb : Str → ℚ) (content : Str)
    (hc : ¬ pyStrip content = [])
    (hN : fetch_nytimes apiN netN = .ok [])
    (hG : fetch_guardian apiG netG = .ok []) :
    (ml_bonus (mlProb content) = 0 ∨ ml_bonus (mlProb content) = 1/5) ∧
    ml_bonus (mlProb content) < 7/20 ∧
    check_fake_news K st apiN apiG netN netG mlProb content
      = .ok (st, ⟨.FAKE, pyRound2 (ml_bonus (mlProb content) * 100),
          some (pyRound2 (0 * 100)), some [], some fusionExplanation⟩) := by
  have hcases := ml_bonus_cases (mlProb content)
  have hlt : ml_bonus (mlProb content) < 7/20 := by
    rcases hcases with h | h <;> rw [h] <;> norm_num
  refine ⟨hcases, hlt, ?_⟩
  rw [check_fake_news_run hc hN hG]
  have hsim1 : (similarity_score K st content ([] ++ [])).1 = st := rfl
  have hsim2 : (similarity_score K st content ([] ++ [])).2 = 0 := rfl
  rw [hsim1, hsim2]
  have hws : weight_score 0 ([] ++ []) = 0 := rfl
  rw [hws, zero_add]
  have hv : verdict_of (ml_bonus (mlProb content)) = .FAKE := by
    unfold verdict_of
    rw [if_neg (by linarith), if_neg (by linarith)]
  rw [hv]
  rfl

/-- C10, instantiated: a maximally confident classifier with no evidence
still yields FAKE. -/
theorem empty_evidence_fake_witness :
    (ml_bonus (alwaysSure sampleContent) = 0 ∨ ml_bonus (alwaysSure sampleContent) = 1/5) ∧
    ml_bonus (alwaysSure sampleContent) < 7/20 ∧
    check_fake_news zerosKernel none none none (.ok emptyNytJson) (.ok emptyGuardJson)
        alwaysSure sampleContent
      = .ok (none, ⟨.FAKE, pyRound2 (ml_bonus (alwaysSure sampleContent) * 100),
          some (pyRound2 (0 * 100)), some [], some fusionExplanation⟩) :=
  empty_evidence_fake zerosKernel none none none (.ok emptyNytJson) (.ok emptyGuardJson)
    alwaysSure sampleContent (by decide) rfl rfl

end Frost
